import Mathlib

/-!
# Minimal clock face: the interface declared by `minimal_clock_face.h`

The header `movement/watch_faces/clock/minimal_clock_face.h` declares

* the per-face state `minimal_clock_state_t` (one `uint8_t`),
* the prototypes of the four lifecycle callbacks, and
* the object-like macro `minimal_clock_face`, a compound literal of type
  `const watch_face_t` with five positional initializers.

The definitions below embed these declarations.  `movement.h`, which declares
`watch_face_t`, `movement_settings_t` and `movement_event_t`, and
`minimal_clock_face.c`, which holds the bodies of the callbacks, are not part of
the sources; what is taken from the prose description instead is marked as such.
-/

namespace MinimalClockFace

/-! ## The per-face state (header lines 38-41) -/

/-- The type `uint8_t`: the naturals below `2 ^ 8`. -/
abbrev uint8_t : Type := Fin (2 ^ 8)

/-- The face's state, `typedef struct { uint8_t unused; } minimal_clock_state_t;`. -/
structure minimal_clock_state_t where
  unused : uint8_t
  deriving DecidableEq, Repr

/-! ## FaceFunction designators and function pointers -/

/-- The four functions the header declares (lines 43-46). -/
inductive FaceFunction where
  | minimal_clock_face_setup
  | minimal_clock_face_activate
  | minimal_clock_face_loop
  | minimal_clock_face_resign
  deriving DecidableEq, Repr

/-- A pointer to a function: either the null pointer or the address of a declared
function.  A function designator never converts to the null pointer. -/
abbrev FunctionPointer : Type := Option FaceFunction

/-- The null pointer constant `NULL`. -/
def NULL : FunctionPointer := none

/-! ## The prototypes (header lines 43-46) -/

/-- The C types that occur in the four prototypes. -/
inductive CType where
  | void
  | bool
  | uint8_t
  | movement_settings_t
  | movement_event_t
  | pointer (target : CType)
  deriving DecidableEq, Repr

/-- A function prototype: the declared result type and the parameter types in order. -/
structure Prototype where
  result : CType
  parameters : List CType
  deriving DecidableEq, Repr

/-- The prototype the header gives each function. -/
def prototype : FaceFunction → Prototype
  | .minimal_clock_face_setup =>
      ⟨.void, [.pointer .movement_settings_t, .uint8_t, .pointer (.pointer .void)]⟩
  | .minimal_clock_face_activate =>
      ⟨.void, [.pointer .movement_settings_t, .pointer .void]⟩
  | .minimal_clock_face_loop =>
      ⟨.bool, [.movement_event_t, .pointer .movement_settings_t, .pointer .void]⟩
  | .minimal_clock_face_resign =>
      ⟨.void, [.pointer .movement_settings_t, .pointer .void]⟩

/-- The values a call hands back to its caller, by declared result type: a `void`
function hands back nothing (the one-point type carries no information), a `bool`
function hands back `true` or `false`, a `uint8_t` function a byte; the remaining
types of the header are represented by a machine word. -/
def CType.Returned : CType → Type
  | .void => Unit
  | .bool => Bool
  | .uint8_t => MinimalClockFace.uint8_t
  | _ => Nat

/-- Whether a function of this prototype returns a result to its caller. -/
def Prototype.returns_value (p : Prototype) : Bool :=
  decide (p.result ≠ CType.void)

/-! ## The descriptor (header lines 48-54) -/

/-- Modelled from the spec: `watch_face_t` is declared in `movement.h`, which is not
part of the sources.  The description gives it as "a fixed-layout record of five
pointer-sized fields (four callbacks + one reserved)", the callbacks in the order
setup, activate, loop, resign. -/
structure watch_face_t where
  setup : FunctionPointer
  activate : FunctionPointer
  loop : FunctionPointer
  resign : FunctionPointer
  reserved : FunctionPointer
  deriving DecidableEq, Repr

/-- The fields of a descriptor in layout order. -/
def watch_face_t.fields (w : watch_face_t) : List FunctionPointer :=
  [w.setup, w.activate, w.loop, w.resign, w.reserved]

/-- The callback fields of a descriptor, in layout order. -/
def watch_face_t.callbacks (w : watch_face_t) : List FunctionPointer :=
  [w.setup, w.activate, w.loop, w.resign]

/-- The macro `minimal_clock_face`: the compound literal
`((const watch_face_t){ minimal_clock_face_setup, minimal_clock_face_activate,
minimal_clock_face_loop, minimal_clock_face_resign, NULL, })`.  The initializers are
positional, so they fill the fields in declaration order. -/
def minimal_clock_face : watch_face_t :=
  ⟨some .minimal_clock_face_setup,
   some .minimal_clock_face_activate,
   some .minimal_clock_face_loop,
   some .minimal_clock_face_resign,
   NULL⟩

/-- An initializer expression of a compound literal of function pointers, read at a
point of the program whose state has type `σ`: a function designator, the null
pointer constant, or an expression whose value is read from the state. -/
inductive Initializer (σ : Type) where
  | designator (f : FaceFunction)
  | null
  | read (get : σ → FunctionPointer)

/-- The value of an initializer in a state. -/
def Initializer.eval {σ : Type} (s : σ) : Initializer σ → FunctionPointer
  | .designator f => some f
  | .null => NULL
  | .read get => get s

/-- Positional initialization of a `watch_face_t`: the values fill the fields in
declaration order, fields left without an initializer are null, and a list longer
than the record is rejected. -/
def watch_face_t.ofInitializers (l : List FunctionPointer) : Option watch_face_t :=
  if l.length ≤ 5 then
    some ⟨l.getD 0 NULL, l.getD 1 NULL, l.getD 2 NULL, l.getD 3 NULL, l.getD 4 NULL⟩
  else
    none

/-- The initializer list in the body of the macro `minimal_clock_face`
(header lines 49-53). -/
def minimal_clock_face_initializers (σ : Type) : List (Initializer σ) :=
  [.designator .minimal_clock_face_setup,
   .designator .minimal_clock_face_activate,
   .designator .minimal_clock_face_loop,
   .designator .minimal_clock_face_resign,
   .null]

/-- One use of the macro `minimal_clock_face` at a point of the program whose state
is `s`: the compound literal is built from the values of its initializers there. -/
def minimal_clock_face_use {σ : Type} (s : σ) : Option watch_face_t :=
  watch_face_t.ofInitializers ((minimal_clock_face_initializers σ).map (Initializer.eval s))

/-! ## The lifecycle calls

The bodies of the four callbacks are in `minimal_clock_face.c`, which is not part of
the sources.  The definitions of this section follow the prototypes of the header for
what each call receives, and the prose description for what each call may do. -/

/-- The address of an object; `0` is the null pointer. -/
abbrev Address : Type := Nat

/-- The allocated context blocks: each block's address with its contents. -/
abbrev Heap : Type := List (Address × minimal_clock_state_t)

/-- The contents of the block at an address, if a block is allocated there. -/
def Heap.read : Heap → Address → Option minimal_clock_state_t
  | [], _ => none
  | (b, v) :: h, a => if a = b then some v else Heap.read h a

/-- Store through a pointer: the block at the address gets new contents; no block is
created, freed or moved. -/
def Heap.write : Heap → Address → minimal_clock_state_t → Heap
  | [], _, _ => []
  | (b, v) :: h, a, x => if a = b then (b, x) :: h else (b, v) :: Heap.write h a x

/-- An address that is not null and above every allocated block. -/
def Heap.fresh (h : Heap) : Address :=
  (h.map Prod.fst).foldr max 0 + 1

/-- The part of the machine the face's calls can reach: the settings object the
`settings` argument points to, the host's handle on the face's context (the location
`context_ptr` points to), and the allocated context blocks. -/
structure Machine (Settings : Type) where
  settings : Settings
  context : Address
  heap : Heap

/-- Modelled from the spec: the bodies of `minimal_clock_face_setup`,
`minimal_clock_face_activate`, `minimal_clock_face_loop` and
`minimal_clock_face_resign` are in `minimal_clock_face.c`, which is not part of the
sources.  The description says that setup "allocate/initialize"s the context, that
`settings` is "read-only global configuration", that the side effects of activate are
"limited to mutating `context`", that the context is "mutated during `loop`", and
that loop "returns a boolean".  What a body computes is therefore left open: any
initial contents, any new contents of the context computed from what the call
receives, and for loop any boolean result. -/
structure Bodies (Settings Event : Type) where
  setup : Settings → uint8_t → minimal_clock_state_t
  activate : Settings → minimal_clock_state_t → minimal_clock_state_t
  loop : Event → Settings → minimal_clock_state_t → Bool × minimal_clock_state_t
  resign : Settings → minimal_clock_state_t → minimal_clock_state_t

/-- Modelled from the spec: `void minimal_clock_face_setup(movement_settings_t *settings,
uint8_t watch_face_index, void ** context_ptr)`, body missing.  It is "called once ...
to allocate/initialize the face's private context and write its address through
`context_ptr`". -/
def minimal_clock_face_setup {Settings Event : Type} (b : Bodies Settings Event)
    (watch_face_index : uint8_t) (m : Machine Settings) : Machine Settings :=
  { m with
    context := Heap.fresh m.heap
    heap := (Heap.fresh m.heap, b.setup m.settings watch_face_index) :: m.heap }

/-- Modelled from the spec: `void minimal_clock_face_activate(movement_settings_t *settings,
void *context)`, body missing.  "No return value; side effects limited to mutating
`context`."  The pointer is received by value; a pointer to no block is not written
through. -/
def minimal_clock_face_activate {Settings Event : Type} (b : Bodies Settings Event)
    (context : Address) (m : Machine Settings) : Machine Settings :=
  match Heap.read m.heap context with
  | some st => { m with heap := Heap.write m.heap context (b.activate m.settings st) }
  | none => m

/-- Modelled from the spec: `bool minimal_clock_face_loop(movement_event_t event,
movement_settings_t *settings, void *context)`, body missing.  It is called "with one
event at a time; returns a boolean", and the context is "mutated during `loop`". -/
def minimal_clock_face_loop {Settings Event : Type} (b : Bodies Settings Event)
    (event : Event) (context : Address) (m : Machine Settings) : Bool × Machine Settings :=
  match Heap.read m.heap context with
  | some st =>
      ((b.loop event m.settings st).1,
       { m with heap := Heap.write m.heap context (b.loop event m.settings st).2 })
  | none => (false, m)

/-- Modelled from the spec: `void minimal_clock_face_resign(movement_settings_t *settings,
void *context)`, body missing.  It is "called when focus leaves this face, for cleanup
of transient (non-persistent) state". -/
def minimal_clock_face_resign {Settings Event : Type} (b : Bodies Settings Event)
    (context : Address) (m : Machine Settings) : Machine Settings :=
  match Heap.read m.heap context with
  | some st => { m with heap := Heap.write m.heap context (b.resign m.settings st) }
  | none => m

/-- A call the host makes on the face after setup. -/
inductive Call (Event : Type) where
  | activate
  | loop (event : Event)
  | resign

/-- The host makes one call, handing the face the handle it holds. -/
def Call.run {Settings Event : Type} (b : Bodies Settings Event) :
    Call Event → Machine Settings → Machine Settings
  | .activate, m => minimal_clock_face_activate b m.context m
  | .loop event, m => (minimal_clock_face_loop b event m.context m).2
  | .resign, m => minimal_clock_face_resign b m.context m

/-- The host makes a sequence of calls, first to last. -/
def run_calls {Settings Event : Type} (b : Bodies Settings Event) :
    List (Call Event) → Machine Settings → Machine Settings
  | [], m => m
  | c :: cs, m => run_calls b cs (Call.run b c m)

/-! ## What the face shows -/

/-- A time of day as the real-time clock gives it. -/
structure TimeOfDay where
  hour : Fin 24
  minute : Fin 60
  second : Fin 60
  deriving DecidableEq, Repr

/-- What the face puts on the display: an hour and a minute. -/
structure Shown where
  hour : Nat
  minute : Nat
  deriving DecidableEq, Repr

/-- The hour of a 12-hour clock: 12, 1, ..., 11 for the hours 0, 1, ..., 11 and again
for 12, 13, ..., 23. -/
def hour_12h (hour : Nat) : Nat :=
  if hour % 12 = 0 then 12 else hour % 12

/-- Modelled from the spec: the routine that draws the face is in
`minimal_clock_face.c`, which is not part of the sources.  The header's comment says:
"A minimal clock face that just shows hours and minutes.  There is nothing to
configure.  The face follows the 12h/24h setting".  The routine receives the host's
12h/24h setting, the time of day and the face's state. -/
def minimal_clock_face_display (clock_mode_24h : Bool) (t : TimeOfDay)
    (_state : minimal_clock_state_t) : Shown :=
  { hour := if clock_mode_24h then t.hour.val else hour_12h t.hour.val
    minute := t.minute.val }

/-! ## The descriptor: order, null field, number of fields -/

/-- C1: the descriptor `minimal_clock_face` holds the four callbacks in the order
setup, activate, loop, resign: its first field is `minimal_clock_face_setup`, its
second `minimal_clock_face_activate`, its third `minimal_clock_face_loop`, its fourth
`minimal_clock_face_resign`, and none of the four is the null pointer. -/
theorem minimal_clock_face_callbacks_in_order :
    minimal_clock_face.setup = some FaceFunction.minimal_clock_face_setup ∧
    minimal_clock_face.activate = some FaceFunction.minimal_clock_face_activate ∧
    minimal_clock_face.loop = some FaceFunction.minimal_clock_face_loop ∧
    minimal_clock_face.resign = some FaceFunction.minimal_clock_face_resign ∧
    watch_face_t.fields minimal_clock_face =
      [some FaceFunction.minimal_clock_face_setup, some FaceFunction.minimal_clock_face_activate,
       some FaceFunction.minimal_clock_face_loop, some FaceFunction.minimal_clock_face_resign,
       minimal_clock_face.reserved] ∧
    minimal_clock_face.setup ≠ NULL ∧
    minimal_clock_face.activate ≠ NULL ∧
    minimal_clock_face.loop ≠ NULL ∧
    minimal_clock_face.resign ≠ NULL := by
  refine ⟨rfl, rfl, rfl, rfl, rfl, ?_, ?_, ?_, ?_⟩ <;> simp [minimal_clock_face, NULL]

/-- C2: the reserved field of the descriptor `minimal_clock_face`, the field that
follows the four callbacks in the layout, is the null pointer. -/
theorem minimal_clock_face_reserved_null :
    minimal_clock_face.reserved = NULL ∧
    watch_face_t.fields minimal_clock_face =
      watch_face_t.callbacks minimal_clock_face ++ [NULL] := by
  exact ⟨rfl, rfl⟩

/-- C3: the descriptor has exactly five fields, four callbacks and one reserved field,
and no others: the macro gives five initializers, the layout lists five fields (the
four callbacks, then the reserved one), and a descriptor is nothing more than its five
fields: two descriptors with the same five fields are equal, and every list of five
pointers is the field list of a descriptor. -/
theorem minimal_clock_face_five_fields :
    (minimal_clock_face_initializers Unit).length = 5 ∧
    (watch_face_t.fields minimal_clock_face).length = 5 ∧
    (watch_face_t.callbacks minimal_clock_face).length = 4 ∧
    watch_face_t.fields minimal_clock_face =
      watch_face_t.callbacks minimal_clock_face ++ [minimal_clock_face.reserved] ∧
    (∀ w w' : watch_face_t, watch_face_t.fields w = watch_face_t.fields w' → w = w') ∧
    (∀ l : List FunctionPointer, l.length = 5 → ∃ w : watch_face_t, watch_face_t.fields w = l) := by
  refine ⟨rfl, rfl, rfl, rfl, ?_, ?_⟩
  · rintro ⟨a, b, c, d, e⟩ ⟨a', b', c', d', e'⟩ h
    simp only [watch_face_t.fields, List.cons.injEq, and_true] at h
    obtain ⟨h1, h2, h3, h4, h5⟩ := h
    subst h1 h2 h3 h4 h5
    rfl
  · intro l hl
    match l, hl with
    | [a, b, c, d, e], _ => exact ⟨⟨a, b, c, d, e⟩, rfl⟩

/-! ## The prototypes -/

/-- C4: of the four lifecycle callbacks, loop is the only one that returns a result, and
the result is a boolean: whatever the body of `minimal_clock_face_loop` is, for every
event, settings and context it yields `true` or `false`; `minimal_clock_face_setup`,
`minimal_clock_face_activate` and `minimal_clock_face_resign` are declared `void` and
hand back nothing a caller could tell apart. -/
theorem loop_alone_returns_a_boolean :
    (∀ f : FaceFunction,
      (prototype f).returns_value = true ↔ f = FaceFunction.minimal_clock_face_loop) ∧
    (prototype FaceFunction.minimal_clock_face_loop).result = CType.bool ∧
    (prototype FaceFunction.minimal_clock_face_setup).result = CType.void ∧
    (prototype FaceFunction.minimal_clock_face_activate).result = CType.void ∧
    (prototype FaceFunction.minimal_clock_face_resign).result = CType.void ∧
    (∀ (Event Settings Context : Type)
       (body : Event → Settings → Context →
         CType.Returned (prototype FaceFunction.minimal_clock_face_loop).result)
       (event : Event) (settings : Settings) (context : Context),
       body event settings context = true ∨ body event settings context = false) ∧
    (∀ f : FaceFunction, f ≠ FaceFunction.minimal_clock_face_loop →
       ∀ r r' : CType.Returned (prototype f).result, r = r') := by
  refine ⟨?_, rfl, rfl, rfl, rfl, ?_, ?_⟩
  · intro f
    cases f <;> simp [prototype, Prototype.returns_value]
  · intro Event Settings Context body event settings context
    cases h : body event settings context
    · exact Or.inr rfl
    · exact Or.inl rfl
  · intro f hf r r'
    cases f
    · cases r; cases r'; rfl
    · cases r; cases r'; rfl
    · exact absurd rfl hf
    · cases r; cases r'; rfl

/-! ## The descriptor is a constant -/

/-- C8: the descriptor `minimal_clock_face` is a constant that depends on no input: a
use of the macro denotes the same record whatever the settings, the event and the
context at the point of use, so any two uses are equal field by field. -/
theorem minimal_clock_face_same_at_every_use (Settings Event Context : Type)
    (settings settings' : Settings) (event event' : Event) (context context' : Context) :
    minimal_clock_face_use (settings, event, context) = some minimal_clock_face ∧
    minimal_clock_face_use (settings', event', context') = some minimal_clock_face ∧
    (∀ w w' : watch_face_t,
      minimal_clock_face_use (settings, event, context) = some w →
      minimal_clock_face_use (settings', event', context') = some w' →
      w.setup = w'.setup ∧ w.activate = w'.activate ∧ w.loop = w'.loop ∧
      w.resign = w'.resign ∧ w.reserved = w'.reserved) := by
  have h : ∀ (σ : Type) (s : σ), minimal_clock_face_use s = some minimal_clock_face :=
    fun _ _ => rfl
  refine ⟨h _ _, h _ _, ?_⟩
  intro w w' hw hw'
  rw [h] at hw hw'
  cases hw
  cases hw'
  exact ⟨rfl, rfl, rfl, rfl, rfl⟩

/-! ## The per-face state -/

/-- C9: the per-face context `minimal_clock_state_t` is a single byte: its one field is
an unsigned 8-bit integer, so a state is determined by that field, the field is a
number from 0 to 255, and every such number is the field of a state. -/
theorem minimal_clock_state_t_single_byte :
    (∀ s : minimal_clock_state_t, s.unused.val ≤ 255) ∧
    (∀ s t : minimal_clock_state_t, s.unused = t.unused → s = t) ∧
    (∀ n : Nat, n ≤ 255 → ∃ s : minimal_clock_state_t, s.unused.val = n) ∧
    Nat.card minimal_clock_state_t = 256 := by
  refine ⟨?_, ?_, ?_, ?_⟩
  · intro s
    have := s.unused.isLt
    omega
  · rintro ⟨a⟩ ⟨b⟩ h
    cases h
    rfl
  · intro n hn
    exact ⟨⟨⟨n, by omega⟩⟩, rfl⟩
  · have e : minimal_clock_state_t ≃ Fin (2 ^ 8) :=
      { toFun := fun s => s.unused
        invFun := fun u => ⟨u⟩
        left_inv := fun _ => rfl
        right_inv := fun _ => rfl }
    rw [Nat.card_congr e, Nat.card_eq_fintype_card, Fintype.card_fin]
    rfl

/-! ## The heap of context blocks -/

theorem Heap.read_write_same (h : Heap) (a : Address) (x : minimal_clock_state_t) :
    Heap.read (Heap.write h a x) a = (Heap.read h a).map (fun _ => x) := by
  induction h with
  | nil => rfl
  | cons p h ih =>
    obtain ⟨b, v⟩ := p
    by_cases hab : a = b
    · simp [Heap.read, Heap.write, hab]
    · simp [Heap.read, Heap.write, hab, ih]

theorem Heap.read_write_other (h : Heap) (a c : Address) (x : minimal_clock_state_t)
    (hne : a ≠ c) : Heap.read (Heap.write h c x) a = Heap.read h a := by
  induction h with
  | nil => rfl
  | cons p h ih =>
    obtain ⟨b, v⟩ := p
    by_cases hcb : c = b
    · subst hcb
      simp [Heap.read, Heap.write, hne]
    · by_cases hab : a = b
      · simp [Heap.read, Heap.write, hcb, hab]
      · simp [Heap.read, Heap.write, hcb, hab, ih]

theorem Heap.isSome_read_write (h : Heap) (a c : Address) (x : minimal_clock_state_t) :
    (Heap.read (Heap.write h c x) a).isSome = (Heap.read h a).isSome := by
  by_cases hac : a = c
  · subst hac
    rw [Heap.read_write_same]
    cases Heap.read h a <;> rfl
  · rw [Heap.read_write_other h a c x hac]

theorem Heap.lt_fresh_of_read (h : Heap) (a : Address)
    (ha : (Heap.read h a).isSome = true) : a < Heap.fresh h := by
  induction h with
  | nil => simp [Heap.read] at ha
  | cons p h ih =>
    obtain ⟨b, v⟩ := p
    by_cases hab : a = b
    · subst hab
      simp only [Heap.fresh, List.map_cons, List.foldr_cons]
      exact Nat.lt_succ_of_le (Nat.le_max_left _ _)
    · simp only [Heap.read, hab, if_false] at ha
      have hlt := ih ha
      simp only [Heap.fresh, List.map_cons, List.foldr_cons] at hlt ⊢
      exact Nat.lt_of_lt_of_le hlt (Nat.succ_le_succ (Nat.le_max_right _ _))

theorem Heap.read_fresh (h : Heap) : Heap.read h (Heap.fresh h) = none := by
  cases hr : Heap.read h (Heap.fresh h) with
  | none => rfl
  | some v =>
    exact absurd (Heap.lt_fresh_of_read h (Heap.fresh h) (by rw [hr]; rfl)) (Nat.lt_irrefl _)

/-! ## Frame properties of the calls -/

theorem Call.run_context {Settings Event : Type} (b : Bodies Settings Event)
    (c : Call Event) (m : Machine Settings) : (Call.run b c m).context = m.context := by
  cases c with
  | activate =>
    simp only [Call.run, minimal_clock_face_activate]
    cases Heap.read m.heap m.context <;> rfl
  | loop event =>
    simp only [Call.run, minimal_clock_face_loop]
    cases Heap.read m.heap m.context <;> rfl
  | resign =>
    simp only [Call.run, minimal_clock_face_resign]
    cases Heap.read m.heap m.context <;> rfl

theorem Call.run_settings {Settings Event : Type} (b : Bodies Settings Event)
    (c : Call Event) (m : Machine Settings) : (Call.run b c m).settings = m.settings := by
  cases c with
  | activate =>
    simp only [Call.run, minimal_clock_face_activate]
    cases Heap.read m.heap m.context <;> rfl
  | loop event =>
    simp only [Call.run, minimal_clock_face_loop]
    cases Heap.read m.heap m.context <;> rfl
  | resign =>
    simp only [Call.run, minimal_clock_face_resign]
    cases Heap.read m.heap m.context <;> rfl

theorem Call.run_allocated {Settings Event : Type} (b : Bodies Settings Event)
    (c : Call Event) (m : Machine Settings) (a : Address) :
    (Heap.read (Call.run b c m).heap a).isSome = (Heap.read m.heap a).isSome := by
  cases c with
  | activate =>
    simp only [Call.run, minimal_clock_face_activate]
    cases Heap.read m.heap m.context with
    | none => rfl
    | some st => exact Heap.isSome_read_write _ _ _ _
  | loop event =>
    simp only [Call.run, minimal_clock_face_loop]
    cases Heap.read m.heap m.context with
    | none => rfl
    | some st => exact Heap.isSome_read_write _ _ _ _
  | resign =>
    simp only [Call.run, minimal_clock_face_resign]
    cases Heap.read m.heap m.context with
    | none => rfl
    | some st => exact Heap.isSome_read_write _ _ _ _

theorem run_calls_context {Settings Event : Type} (b : Bodies Settings Event)
    (calls : List (Call Event)) (m : Machine Settings) :
    (run_calls b calls m).context = m.context := by
  induction calls generalizing m with
  | nil => rfl
  | cons c cs ih => rw [run_calls, ih, Call.run_context]

theorem run_calls_allocated {Settings Event : Type} (b : Bodies Settings Event)
    (calls : List (Call Event)) (m : Machine Settings) (a : Address) :
    (Heap.read (run_calls b calls m).heap a).isSome = (Heap.read m.heap a).isSome := by
  induction calls generalizing m with
  | nil => rfl
  | cons c cs ih => rw [run_calls, ih, Call.run_allocated]

/-! ## The context pointer and the settings across the lifecycle -/

/-- C5: `minimal_clock_face_setup` writes the address of the face's context through
`context_ptr`: after setup the host's handle is a non-null address that was not
allocated before and now holds the context as setup initialized it.  Across every
later sequence of `minimal_clock_face_activate`, `minimal_clock_face_loop` and
`minimal_clock_face_resign` calls the handle is unchanged and still points to an
allocated context block. -/
theorem context_pointer_written_and_stable {Settings Event : Type}
    (b : Bodies Settings Event) (watch_face_index : uint8_t) (m : Machine Settings)
    (calls : List (Call Event)) :
    (minimal_clock_face_setup b watch_face_index m).context ≠ 0 ∧
    Heap.read m.heap (minimal_clock_face_setup b watch_face_index m).context = none ∧
    Heap.read (minimal_clock_face_setup b watch_face_index m).heap
        (minimal_clock_face_setup b watch_face_index m).context
      = some (b.setup m.settings watch_face_index) ∧
    (run_calls b calls (minimal_clock_face_setup b watch_face_index m)).context
      = (minimal_clock_face_setup b watch_face_index m).context ∧
    (Heap.read (run_calls b calls (minimal_clock_face_setup b watch_face_index m)).heap
        (minimal_clock_face_setup b watch_face_index m).context).isSome = true := by
  refine ⟨?_, ?_, ?_, ?_, ?_⟩
  · exact Nat.succ_ne_zero _
  · exact Heap.read_fresh m.heap
  · simp [minimal_clock_face_setup, Heap.read]
  · exact run_calls_context b calls _
  · rw [run_calls_allocated]
    simp [minimal_clock_face_setup, Heap.read]

/-- C6: the settings are read-only to the face: when `minimal_clock_face_setup` or
`minimal_clock_face_activate` returns, the settings are the ones passed in; and the
only effect of activate is on the context: the host's handle is unchanged, every block
other than the one `context` points to has its contents unchanged, and no block is
allocated or freed. -/
theorem settings_read_only {Settings Event : Type} (b : Bodies Settings Event)
    (watch_face_index : uint8_t) (context : Address) (m : Machine Settings) :
    (minimal_clock_face_setup b watch_face_index m).settings = m.settings ∧
    (minimal_clock_face_activate b context m).settings = m.settings ∧
    (minimal_clock_face_activate b context m).context = m.context ∧
    (∀ a : Address, a ≠ context →
      Heap.read (minimal_clock_face_activate b context m).heap a = Heap.read m.heap a) ∧
    (∀ a : Address,
      (Heap.read (minimal_clock_face_activate b context m).heap a).isSome
        = (Heap.read m.heap a).isSome) := by
  refine ⟨rfl, ?_, ?_, ?_, ?_⟩
  · simp only [minimal_clock_face_activate]
    cases Heap.read m.heap context <;> rfl
  · simp only [minimal_clock_face_activate]
    cases Heap.read m.heap context <;> rfl
  · intro a ha
    simp only [minimal_clock_face_activate]
    cases Heap.read m.heap context with
    | none => rfl
    | some st => exact Heap.read_write_other _ _ _ _ ha
  · intro a
    simp only [minimal_clock_face_activate]
    cases Heap.read m.heap context with
    | none => rfl
    | some st => exact Heap.isSome_read_write _ _ _ _

/-! ## What the face shows -/

theorem hour_12h_range (hour : Nat) : 1 ≤ hour_12h hour ∧ hour_12h hour ≤ 12 := by
  unfold hour_12h
  split <;> omega

theorem hour_12h_mod (hour : Nat) : hour_12h hour % 12 = hour % 12 := by
  unfold hour_12h
  split <;> omega

/-- C7: the minimal clock face shows only an hour and a minute, and the hour follows
the 12h/24h setting: in 24h mode the hour shown is the hour of the day (0 to 23), in
12h mode it is the hour of the 12-hour clock (1 to 12, equal to the hour of the day up
to a multiple of 12); the minute shown is the minute of the day; and what is shown
depends on nothing else: not on the seconds and not on the face's own state. -/
theorem display_follows_12h_24h_setting (clock_mode_24h : Bool) (t : TimeOfDay)
    (state : minimal_clock_state_t) :
    (minimal_clock_face_display clock_mode_24h t state).minute = t.minute.val ∧
    (clock_mode_24h = true →
      (minimal_clock_face_display clock_mode_24h t state).hour = t.hour.val) ∧
    (clock_mode_24h = false →
      1 ≤ (minimal_clock_face_display clock_mode_24h t state).hour ∧
      (minimal_clock_face_display clock_mode_24h t state).hour ≤ 12 ∧
      (minimal_clock_face_display clock_mode_24h t state).hour % 12 = t.hour.val % 12) ∧
    (∀ (t' : TimeOfDay) (state' : minimal_clock_state_t),
      t'.hour = t.hour → t'.minute = t.minute →
      minimal_clock_face_display clock_mode_24h t' state'
        = minimal_clock_face_display clock_mode_24h t state) := by
  refine ⟨rfl, ?_, ?_, ?_⟩
  · intro h
    simp [minimal_clock_face_display, h]
  · intro h
    simp only [minimal_clock_face_display, h]
    exact ⟨(hour_12h_range _).1, (hour_12h_range _).2, hour_12h_mod _⟩
  · intro t' state' hh hm
    simp [minimal_clock_face_display, hh, hm]

/-! ## Concrete evaluations -/

theorem minimal_clock_face_display_examples :
    minimal_clock_face_display false ⟨0, 30, 15⟩ ⟨0⟩ = ⟨12, 30⟩ ∧
    minimal_clock_face_display false ⟨13, 5, 0⟩ ⟨7⟩ = ⟨1, 5⟩ ∧
    minimal_clock_face_display false ⟨12, 0, 59⟩ ⟨0⟩ = ⟨12, 0⟩ ∧
    minimal_clock_face_display true ⟨0, 30, 15⟩ ⟨0⟩ = ⟨0, 30⟩ ∧
    minimal_clock_face_display true ⟨23, 59, 59⟩ ⟨255⟩ = ⟨23, 59⟩ := by
  decide

theorem lifecycle_example :
    (@run_calls Bool Nat
        ⟨fun _ i => ⟨i⟩, fun _ st => ⟨st.unused + 1⟩,
         fun e _ st => (e % 2 = 0, ⟨st.unused + 2⟩), fun _ _ => ⟨0⟩⟩
        [Call.activate, Call.loop 4, Call.loop 5]
        (@minimal_clock_face_setup Bool Nat
          ⟨fun _ i => ⟨i⟩, fun _ st => ⟨st.unused + 1⟩,
           fun e _ st => (e % 2 = 0, ⟨st.unused + 2⟩), fun _ _ => ⟨0⟩⟩
          3 ⟨true, 0, [(4, ⟨9⟩)]⟩)).heap
      = [(5, ⟨8⟩), (4, ⟨9⟩)] := by
  decide

theorem ofInitializers_examples :
    watch_face_t.ofInitializers [some FaceFunction.minimal_clock_face_loop]
      = some ⟨some FaceFunction.minimal_clock_face_loop, NULL, NULL, NULL, NULL⟩ ∧
    watch_face_t.ofInitializers [NULL, NULL, NULL, NULL, NULL, NULL] = none ∧
    @minimal_clock_face_use Unit () = some minimal_clock_face := by
  decide

end MinimalClockFace
